import Mathlib

/-!
Verification development for the browser dark-mode controller
(src/browser/dark-mode.js).

The embedding models the DarkModeController class as a pure state machine:

* `Ctrl` is the controller instance together with the observable pieces of
  its environment: the bound container element (its two marker classes and
  its owning document), the resolved localStorage handle, the two
  media-query feeds, the DOM listener registrations performed through the
  bound `handleEvent`, and the lazily created gesture handler state.
* `Storage` models the key-value store; along with the visible `data` it
  keeps a `writeLog` recording every property assignment performed on the
  store, so that "a write happened" is distinguishable from "the stored
  value changed".
* `construct` embeds the constructor body for the live-container path
  (valid container in a live host); `Ctrl.toggle` embeds `toggle`;
  `Ctrl.handleEvent` embeds `handleEvent`; `Ctrl.detach` embeds `detach`,
  returning `Except JSError Ctrl` because destructuring a missing
  symbol-keyed property throws a TypeError in JS.
* `Ctrl.toggleLog` records every invocation of `toggle` with its two
  arguments, so that "exactly one toggle action" is expressible.

Machine timers are modelled by the timer id stored in
`HandlerState.timeout`; `setTimeout` returns a fresh id drawn from
`Ctrl.timerCounter`, and the callback firing is delivered as the event
`none` (setTimeout invokes the bound handler with no argument).
-/

namespace DarkMode

/-- The tri-state mode, the "State" typedef of the source. -/
inductive Mode
  | auto
  | enabled
  | disabled
deriving DecidableEq, Repr

/-- The JS string stored for each mode. -/
def Mode.str : Mode → String
  | .auto => "auto"
  | .enabled => "enabled"
  | .disabled => "disabled"

/-- The "ColorScheme" typedef of the source. -/
inductive ColorScheme
  | dark
  | light
deriving DecidableEq, Repr

/-- First argument of `toggle`: an explicit boolean or the string "auto".
An absent argument is modelled as `none` at the call sites. -/
inductive ToggleArg
  | bool (b : Bool)
  | auto
deriving DecidableEq, Repr

/-- A JS number as passed in the longPressTimeout option. Finite values are
modelled exactly as rationals; NaN and the infinities are explicit. -/
inductive JSNum
  | nan
  | posInf
  | negInf
  | num (q : ℚ)
deriving DecidableEq

/-- Result of Math.round on the option value; an absent option rounds to
NaN, finite values round half-up as Math.round does. -/
inductive Rounded
  | nan
  | posInf
  | negInf
  | int (n : ℤ)
deriving DecidableEq

/-- Math.round applied to the longPressTimeout option
(dark-mode.js line 62); Math.round(undefined) is NaN, and for finite x
Math.round x = floor (x + 1/2). -/
def jsRound : Option JSNum → Rounded
  | none => .nan
  | some .nan => .nan
  | some .posInf => .posInf
  | some .negInf => .negInf
  | some (.num q) => .int ⌊q + (1 : ℚ) / 2⌋

/-- The longPressTimeout resolution chain of dark-mode.js lines 62-65:
round; when the rounded value is positive, clamp above at 10000 then below
at 1500 (the inline assignments 10000 and 1500 are truthy so the chain
never falls through once the value is positive); otherwise (NaN or a
non-positive round) fall back to the default 2000. Positive infinity is
positive and clamps to 10000; negative infinity falls back to 2000. -/
def resolveLongPressTimeout (x : Option JSNum) : ℤ :=
  match jsRound x with
  | .nan => 2000
  | .negInf => 2000
  | .posInf => 10000
  | .int r0 =>
    if 0 < r0 then
      let r1 := if r0 ≤ 10000 then r0 else 10000
      if 1500 ≤ r1 then r1 else 1500
    else 2000

/-- The key-value store behind the localStorage handle. `data` is the
visible content (an association list, newest binding first); `writeLog`
records every property assignment performed on the store, in order. -/
structure Storage where
  data : List (String × String) := []
  writeLog : List (String × String) := []
deriving DecidableEq, Repr

/-- Reading a key from the store (localStorage[key]). -/
def Storage.get (s : Storage) (k : String) : Option String :=
  (s.data.find? (fun p => p.1 == k)).map (·.2)

/-- Writing a key to the store (localStorage[key] = value). The write is
also appended to the write log. -/
def Storage.set (s : Storage) (k v : String) : Storage :=
  { data := (k, v) :: s.data.filter (fun p => p.1 != k)
    writeLog := s.writeLog ++ [(k, v)] }

/-- A DOM element as seen by the handler: an identity and the identity of
its owning document (documents are numbered). An element detached from any
document has owner `none`. -/
structure Element where
  eid : ℕ
  owner : Option ℕ
deriving DecidableEq, Repr

/-- The symbol-keyed state object the bound handleEvent carries
(dark-mode.js lines 183-198): last classified action, the tri-state
committed flag, the pending gesture target, the pending long-press timer
handle, and the set of documents carrying an up-listener (kept as a list
in insertion order). -/
structure HandlerState where
  action : Option String := none
  committed : Option Bool := none
  target : Option Element := none
  timeout : Option ℕ := none
  targets : List ℕ := []
deriving DecidableEq, Repr

/-- A DOM event-listener registration made through the bound handleEvent:
document id, event name, capture flag. -/
abbrev Listener := ℕ × String × Bool

/-- addEventListener semantics for one fixed callback: registering the
same (document, name, capture) triple twice is a no-op. -/
def addL (dl : List Listener) (d : ℕ) (n : String) (cap : Bool) : List Listener :=
  if (d, n, cap) ∈ dl then dl else dl ++ [(d, n, cap)]

/-- removeEventListener semantics for one fixed callback: removes the
matching (document, name, capture) triple when present, otherwise no-op. -/
def removeL (dl : List Listener) (d : ℕ) (n : String) (cap : Bool) : List Listener :=
  dl.filter (fun e => e != (d, n, cap))

/-- The controller instance together with its observable environment. -/
structure Ctrl where
  /-- The storage key (immutable, "dark-mode-state@" ++ scope ++ id part). -/
  key : String
  /-- The clamped long-press timeout. -/
  longPressTimeout : ℤ
  /-- Whether "onmouseup" is a property of the container (chooses the
  mouse event family over the pointer family for the up-listener). -/
  supportsMouse : Bool
  /-- Identity of the owning document of the container. -/
  containerDoc : ℕ
  /-- Whether the container classList contains "dark-mode". -/
  classDark : Bool := false
  /-- Whether the container classList contains "light-mode". -/
  classLight : Bool := false
  /-- The mutable state property; `none` models undefined. -/
  state : Option Mode := none
  /-- The mutable prefers property; `none` models undefined. -/
  prefers : Option ColorScheme := none
  /-- The resolved localStorage handle, when available. -/
  store : Option Storage := none
  /-- The prefers-dark media query: `none` when the feed is absent from
  the media-queries record, otherwise its matches flag at construction. -/
  mqDark : Option Bool := none
  /-- The prefers-light media query, same convention. -/
  mqLight : Option Bool := none
  /-- Whether addListener was called on the prefers-dark feed. -/
  mqDarkListener : Bool := false
  /-- Whether addListener was called on the prefers-light feed. -/
  mqLightListener : Bool := false
  /-- The symbol-keyed handler state; `none` until the first handleEvent
  invocation creates it. -/
  handlerState : Option HandlerState := none
  /-- DOM listener registrations made through the bound handleEvent. -/
  domListeners : List Listener := []
  /-- Log of every toggle invocation (state argument, auto argument). -/
  toggleLog : List (Option ToggleArg × Option Bool) := []
  /-- Source of fresh setTimeout handles. -/
  timerCounter : ℕ := 0
deriving DecidableEq, Repr

/-- Core of `toggle` after the auto-driven early-return check
(dark-mode.js lines 295-313). The container is present for every live
controller, so the two container-absent alternatives of the source are
never taken in this model. -/
def Ctrl.toggleCore (c : Ctrl) (st : Option ToggleArg) (auto : Option Bool) : Ctrl :=
  let nextState : Bool :=
    match st with
    | some .auto => c.prefers != some .light
    | some (.bool b) => b
    | none => !c.classDark
  let newMode : Mode :=
    if st = some .auto ∨ auto = some true then .auto
    else if nextState then .enabled else .disabled
  let c := { c with state := some newMode }
  let c :=
    match c.store with
    | some s => if c.key ≠ "" then { c with store := some (s.set c.key newMode.str) } else c
    | none => c
  { c with classDark := nextState, classLight := !nextState }

/-- The toggle method (dark-mode.js lines 288-320). Every invocation is
recorded in the toggle log. When the auto flag is true, a boolean state
argument updates `prefers`, and the method returns early unless the
current mode is auto. -/
def Ctrl.toggle (c : Ctrl) (st : Option ToggleArg) (auto : Option Bool) : Ctrl :=
  let c := { c with toggleLog := c.toggleLog ++ [(st, auto)] }
  if auto = some true then
    let c :=
      match st with
      | some (.bool true) => { c with prefers := some .dark }
      | some (.bool false) => { c with prefers := some .light }
      | _ => c
    if c.state ≠ some .auto then c else c.toggleCore st auto
  else c.toggleCore st auto

/-- Construction input for the live-container path: the derived key, the
container facts, the resolved store, the media-queries record (the source
getMediaQueriesFromContainer always returns an object, so only the two
individual feeds can be absent), and the raw longPressTimeout option. -/
structure Config where
  key : String := "dark-mode-state@/"
  supportsMouse : Bool := true
  containerDoc : ℕ := 0
  store : Option Storage := none
  mqDark : Option Bool := none
  mqLight : Option Bool := none
  longPressTimeout : Option JSNum := none

/-- The constructor body for a live controller (dark-mode.js lines 56-107).
When no storage handle resolves, the whole initialization block (lines
86-101) is skipped: the state stays undefined and no feed listeners are
attached. When a store is available, the persisted value "enabled" or
"disabled" wins; otherwise the assignment chain
localStorage[key] = this.state = "auto" runs while evaluating the second
toggle argument, and then toggle applies the system-preference visual.
The disjunct !mediaQueries of line 92 is always false because
getMediaQueriesFromContainer returns queries or an empty object. -/
def construct (cfg : Config) : Ctrl :=
  let c : Ctrl :=
    { key := cfg.key
      longPressTimeout := resolveLongPressTimeout cfg.longPressTimeout
      supportsMouse := cfg.supportsMouse
      containerDoc := cfg.containerDoc
      store := cfg.store
      mqDark := cfg.mqDark
      mqLight := cfg.mqLight }
  match cfg.store with
  | none => c
  | some s =>
    let c :=
      if s.get cfg.key = some "enabled" then
        ({ c with state := some .enabled }).toggle (some (.bool true)) none
      else if s.get cfg.key = some "disabled" then
        ({ c with state := some .disabled }).toggle (some (.bool false)) none
      else
        let cond : Bool := (cfg.mqDark == some true) || !(cfg.mqLight == some true)
        let c := { c with state := some .auto, store := some (s.set cfg.key "auto") }
        c.toggle (some (.bool cond)) (some true)
    { c with mqDarkListener := cfg.mqDark.isSome, mqLightListener := cfg.mqLight.isSome }

/-- The four pointer or mouse event types the trigger matcher recognizes. -/
inductive PointerType
  | mouseDown
  | mouseUp
  | pointerDown
  | pointerUp
deriving DecidableEq, Repr

/-- Events deliverable to handleEvent. A system event is a media-query
change (its media string contains "dark" or "light" and it carries a
matches flag, and its target is a MediaQueryList with no owning document).
An unknown event is any event whose media or type string matches none of
the six trigger words, so it classifies exactly like the argument-less
timer invocation. -/
inductive Event
  | system (scheme : ColorScheme) (matched : Bool)
  | pointer (pt : PointerType) (target : Option Element)
  | unknown (target : Option Element)
deriving DecidableEq, Repr

/-- The classified trigger; the matchTrigger regular expression ends in an
empty alternative, so every non-matching input yields undefined (`none`),
which is also the classification of the argument-less timer callback. -/
inductive Trigger
  | dark
  | light
  | down
  | up
deriving DecidableEq, Repr

/-- Trigger classification (matchTrigger applied to event.media or
event.type, dark-mode.js lines 205-212 and 433-443). The mouse and
pointer variants land in the same switch arms. -/
def classify : Option Event → Option Trigger
  | some (.system .dark _) => some .dark
  | some (.system .light _) => some .light
  | some (.pointer .mouseDown _) => some .down
  | some (.pointer .pointerDown _) => some .down
  | some (.pointer .mouseUp _) => some .up
  | some (.pointer .pointerUp _) => some .up
  | some (.unknown _) => none
  | none => none

/-- The event target, or `none` (a system event targets the
MediaQueryList, which has no element identity here). -/
def eventTarget : Option Event → Option Element
  | some (.pointer _ t) => t
  | some (.unknown t) => t
  | _ => none

/-- The matches flag of a system event; false for anything else. -/
def eventMatches : Option Event → Bool
  | some (.system _ m) => m
  | _ => false

/-- The event name chosen for up-listeners: "mouseup" when the container
exposes onmouseup, else "pointerup" (dark-mode.js line 192). -/
def Ctrl.upEventName (c : Ctrl) : String :=
  if c.supportsMouse then "mouseup" else "pointerup"

/-- Lazy creation of the handler state on first invocation (dark-mode.js
lines 184-198): install a capture-phase up-listener on the container
document and seed the registry with that document. -/
def Ctrl.ensureHandler (c : Ctrl) : Ctrl :=
  match c.handlerState with
  | some _ => c
  | none =>
    { c with
      domListeners := addL c.domListeners c.containerDoc c.upEventName true
      handlerState := some { targets := [c.containerDoc] } }

/-- Registry growth (dark-mode.js lines 220-224): when the event target
owns a document different from the container document and not yet
registered, record it and install a capture-phase up-listener on it.
Returns the new listener list and the new registry. -/
def registerContext (c : Ctrl) (hs : HandlerState) (ownerDoc : Option ℕ) :
    List Listener × List ℕ :=
  match ownerDoc with
  | none => (c.domListeners, hs.targets)
  | some d =>
    if d = c.containerDoc ∨ d ∈ hs.targets then (c.domListeners, hs.targets)
    else (addL c.domListeners d c.upEventName true, hs.targets ++ [d])

/-- The switch statement of handleEvent (dark-mode.js lines 226-280),
applied after the timer was cleared and the registry grown. The default
arm of the source (a console warning) is unreachable because every
non-matching input classifies as undefined. -/
def Ctrl.dispatch (c : Ctrl) (hs : HandlerState) (tr : Option Trigger)
    (target : Option Element) (ownerDoc : Option ℕ) (matched : Bool) : Ctrl :=
  match tr with
  | some .dark =>
    let c := if matched then c.toggle (some (.bool true)) (some true) else c
    { c with handlerState := some { hs with committed := none, target := none } }
  | some .light =>
    let c := if matched then c.toggle (some (.bool false)) (some true) else c
    { c with handlerState := some { hs with committed := none, target := none } }
  | none =>
    if hs.target ≠ none ∧ hs.committed = some false then
      let c := { c with
        handlerState := some { hs with action := some "auto", committed := some true } }
      c.toggle (some .auto) none
    else
      { c with handlerState := some { hs with action := some "ignore" } }
  | some .up =>
    if hs.target = none then
      { c with handlerState := some { hs with action := some "ignore" } }
    else if hs.target = target ∧ hs.committed = some false then
      let c := c.toggle none none
      { c with
        handlerState := some { hs with action := some "toggle", committed := none, target := none } }
    else
      { c with
        handlerState := some { hs with action := some "release", committed := none, target := none } }
  | some .down =>
    if target = none ∨ ownerDoc = none then
      if hs.target = none then
        { c with handlerState := some { hs with action := some "ignore" } }
      else
        { c with
          handlerState := some { hs with action := some "release", committed := none, target := none } }
    else
      { c with
        timerCounter := c.timerCounter + 1
        handlerState := some { hs with action := some "capture", target := target, committed := some false, timeout := some c.timerCounter } }

/-- The bound handleEvent (dark-mode.js lines 182-282). The `none` event
is the argument-less invocation performed by the long-press setTimeout.
The pending timeout is cleared on every entry before anything else. The
inner `none` arm is unreachable because ensureHandler always installs a
handler state (the container document always exists for a live
controller, so the ReferenceError path of line 201 is not taken). -/
def Ctrl.handleEvent (c : Ctrl) (ev : Option Event) : Ctrl :=
  let c1 := c.ensureHandler
  match c1.handlerState with
  | none => c1
  | some hs0 =>
    let target := eventTarget ev
    let ownerDoc := target.bind (·.owner)
    let hs1 : HandlerState := { hs0 with timeout := none }
    let p := registerContext c1 hs1 ownerDoc
    let c2 := { c1 with domListeners := p.1 }
    let hs2 := { hs1 with targets := p.2 }
    Ctrl.dispatch c2 hs2 (classify ev) target ownerDoc (eventMatches ev)

/-- The error a detach call can throw. -/
inductive JSError
  | typeError
deriving DecidableEq, Repr

/-- The detach method (dark-mode.js lines 109-119). Destructuring the
symbol-keyed handler state throws a TypeError when the state was never
created; with an empty registry it returns early; otherwise it empties
the registry and calls removeEventListener on each registered document
with the names "onmousedown", "onmouseup", "onpointerdown", "onpointerup"
and the default bubble phase. -/
def Ctrl.detach (c : Ctrl) : Except JSError Ctrl :=
  match c.handlerState with
  | none => .error .typeError
  | some hs =>
    if hs.targets.length = 0 then .ok c
    else
      let dl := hs.targets.foldl
        (fun dl d =>
          removeL (removeL (removeL (removeL dl d "onmousedown" false)
            d "onmouseup" false) d "onpointerdown" false) d "onpointerup" false)
        c.domListeners
      .ok { c with domListeners := dl, handlerState := some { hs with targets := [] } }

/-- The last classified action of the handler, when a handler state
exists. -/
def Ctrl.lastAction (c : Ctrl) : Option String :=
  c.handlerState.bind (·.action)

/-- Decidable form of the timer invariant: when a handler state exists,
the timer handle is set exactly when a pending target is set and
committed is false. -/
def checkInv (c : Ctrl) : Bool :=
  match c.handlerState with
  | none => true
  | some hs => hs.timeout.isSome == (hs.target.isSome && (hs.committed == some false))

/-- Delivering a sequence of events (each either a real event or the
argument-less timer invocation) to the handler. -/
def run (c : Ctrl) (evs : List (Option Event)) : Ctrl :=
  evs.foldl Ctrl.handleEvent c

end DarkMode

namespace DarkMode

/-! ### Helper lemmas -/

/-- Reading a key immediately after writing it returns the written value. -/
@[simp] lemma Storage.get_set (s : Storage) (k v : String) :
    (s.set k v).get k = some v := by
  simp [Storage.get, Storage.set]

/-- The write log after a write is the old log extended by the write. -/
@[simp] lemma Storage.writeLog_set (s : Storage) (k v : String) :
    (s.set k v).writeLog = s.writeLog ++ [(k, v)] := rfl

/-- toggleCore never touches the handler state. -/
@[simp] lemma toggleCore_handlerState (c : Ctrl) (st : Option ToggleArg) (a : Option Bool) :
    (c.toggleCore st a).handlerState = c.handlerState := by
  unfold Ctrl.toggleCore
  rcases c.store with _ | s <;> simp <;> split <;> rfl

/-- toggle never touches the handler state. -/
@[simp] lemma toggle_handlerState (c : Ctrl) (st : Option ToggleArg) (a : Option Bool) :
    (c.toggle st a).handlerState = c.handlerState := by
  unfold Ctrl.toggle
  dsimp only
  split
  · split <;> split <;> simp
  · simp

/-- toggleCore always leaves the state property set. -/
lemma toggleCore_state_isSome (c : Ctrl) (st : Option ToggleArg) (a : Option Bool) :
    ∃ m, (c.toggleCore st a).state = some m := by
  unfold Ctrl.toggleCore
  rcases c.store with _ | s <;> simp <;> split <;> simp

/-- toggle either returns early with the state untouched or sets it. -/
lemma toggle_state_cases (c : Ctrl) (st : Option ToggleArg) (a : Option Bool) :
    (c.toggle st a).state = c.state ∨ ∃ m, (c.toggle st a).state = some m := by
  unfold Ctrl.toggle
  dsimp only
  split
  · split
    · left
      split <;> rfl
    · right
      exact toggleCore_state_isSome _ _ _
  · right
    exact toggleCore_state_isSome _ _ _

/-- The constructor never creates the handler state. -/
lemma construct_handlerState (cfg : Config) : (construct cfg).handlerState = none := by
  unfold construct
  rcases cfg.store with _ | s
  · rfl
  · simp only []
    split
    · simp
    · split <;> simp

end DarkMode

namespace DarkMode

/-- C7 counterexample: the out-of-range input 500 resolves to the clamp
bound 1500, not to the default 2000 as the claim states. -/
theorem longPressTimeout_500_clamps :
    resolveLongPressTimeout (some (.num 500)) = 1500 ∧
    resolveLongPressTimeout (some (.num 500)) ≠ 2000 := by
  have h : jsRound (some (.num 500)) = .int 500 := by
    simp only [jsRound]
    norm_num
  simp [resolveLongPressTimeout, h]

/-- C7 (amended): the resolved longPressTimeout is always within
[1500, 10000]; non-numeric input (absent, NaN, negative infinity) and
non-positive rounded input resolve to the default 2000; positive rounded
input is clamped into [1500, 10000] rather than replaced by the default. -/
theorem longPressTimeout_resolution (x : Option JSNum) :
    (1500 ≤ resolveLongPressTimeout x ∧ resolveLongPressTimeout x ≤ 10000)
  ∧ ((jsRound x = .nan ∨ jsRound x = .negInf ∨ ∃ r, jsRound x = .int r ∧ r ≤ 0) →
      resolveLongPressTimeout x = 2000)
  ∧ (∀ r : ℤ, jsRound x = .int r → 0 < r →
      resolveLongPressTimeout x = max 1500 (min 10000 r)) := by
  rcases h : jsRound x with _ | _ | _ | n
  · simp [resolveLongPressTimeout, h]
  · simp [resolveLongPressTimeout, h]
  · simp [resolveLongPressTimeout, h]
  · simp only [resolveLongPressTimeout, h]
    refine ⟨by split_ifs <;> omega, ?_, ?_⟩
    · rintro (h1 | h1 | ⟨r, h1, h2⟩)
      · exact absurd h1 (by simp)
      · exact absurd h1 (by simp)
      · have : n = r := by simpa using h1
        subst this
        split_ifs <;> omega
    · intro r h1 h2
      have : n = r := by simpa using h1
      subst this
      split_ifs <;> omega

/-- C7 witness: the amended resolution evaluated at the in-between value
360 (clamped up to 1500) and at a negative value (default 2000). -/
theorem longPressTimeout_resolution_witness :
    resolveLongPressTimeout (some (.num 360)) = max 1500 (min 10000 360) ∧
    resolveLongPressTimeout (some (.num (-7))) = 2000 := by
  have h1 : jsRound (some (.num 360)) = .int 360 := by
    simp only [jsRound]
    norm_num
  have h2 : jsRound (some (.num (-7))) = .int (-7) := by
    simp only [jsRound]
    norm_num
  constructor
  · exact (longPressTimeout_resolution (some (.num 360))).2.2 360 h1 (by norm_num)
  · exact (longPressTimeout_resolution (some (.num (-7)))).2.1
      (Or.inr (Or.inr (Exists.intro (-7) (And.intro h2 (by norm_num)))))

/-- C1 counterexample: constructed with no storage handle (and a dark
system preference available), the controller state remains undefined
instead of resolving to auto; the whole initialization block is guarded
by the storage handle. -/
theorem mode_unset_without_store :
    (construct { store := none, mqDark := some true }).state = none := rfl

/-- C1 (amended): whenever a storage handle is available, construction
always leaves the mode set to one of the three enumerated values. -/
theorem mode_resolved_with_store (cfg : Config) (s : Storage) (h : cfg.store = some s) :
    (construct cfg).state = some Mode.auto ∨ (construct cfg).state = some Mode.enabled ∨
    (construct cfg).state = some Mode.disabled := by
  have hex : ∃ m, (construct cfg).state = some m := by
    unfold construct
    rw [h]
    dsimp only
    split
    · rcases toggle_state_cases { key := cfg.key, longPressTimeout := resolveLongPressTimeout cfg.longPressTimeout, supportsMouse := cfg.supportsMouse, containerDoc := cfg.containerDoc, mqDark := cfg.mqDark, mqLight := cfg.mqLight, state := some Mode.enabled, store := some s } (some (.bool true)) none with h1 | ⟨m, h1⟩
      · exact ⟨Mode.enabled, by simpa using h1⟩
      · exact ⟨m, by simpa using h1⟩
    · split
      · rcases toggle_state_cases { key := cfg.key, longPressTimeout := resolveLongPressTimeout cfg.longPressTimeout, supportsMouse := cfg.supportsMouse, containerDoc := cfg.containerDoc, mqDark := cfg.mqDark, mqLight := cfg.mqLight, state := some Mode.disabled, store := some s } (some (.bool false)) none with h1 | ⟨m, h1⟩
        · exact ⟨Mode.disabled, by simpa using h1⟩
        · exact ⟨m, by simpa using h1⟩
      · rcases toggle_state_cases { key := cfg.key, longPressTimeout := resolveLongPressTimeout cfg.longPressTimeout, supportsMouse := cfg.supportsMouse, containerDoc := cfg.containerDoc, mqDark := cfg.mqDark, mqLight := cfg.mqLight, state := some Mode.auto, store := some (s.set cfg.key "auto") } (some (.bool ((cfg.mqDark == some true) || !(cfg.mqLight == some true)))) (some true) with h1 | ⟨m, h1⟩
        · exact ⟨Mode.auto, by simpa using h1⟩
        · exact ⟨m, by simpa using h1⟩
  rcases hex with ⟨m, hm⟩
  cases m
  · exact Or.inl hm
  · exact Or.inr (Or.inl hm)
  · exact Or.inr (Or.inr hm)

/-- C1 witness: the amended statement at a concrete configuration with an
available (empty) store. -/
theorem mode_resolved_with_store_witness :
    (construct { store := some ({} : Storage) }).state = some Mode.auto ∨
    (construct { store := some ({} : Storage) }).state = some Mode.enabled ∨
    (construct { store := some ({} : Storage) }).state = some Mode.disabled :=
  mode_resolved_with_store { store := some ({} : Storage) } {} rfl

end DarkMode

namespace DarkMode

/-- Explicit form of a plain toggle(true) call. -/
lemma toggle_explicit_true (c : Ctrl) :
    c.toggle (some (.bool true)) none =
      { c with toggleLog := c.toggleLog ++ [(some (.bool true), none)],
               state := some Mode.enabled,
               store := match c.store with
                 | some s => if c.key ≠ "" then some (s.set c.key "enabled") else some s
                 | none => none,
               classDark := true, classLight := false } := by
  unfold Ctrl.toggle Ctrl.toggleCore
  dsimp only
  rcases hs : c.store with _ | s
  · simp [hs]
  · by_cases hk : c.key = ""
    · simp [hs, hk, Mode.str]
    · simp [hs, hk, Mode.str]

/-- Writing the same binding twice leaves the visible data unchanged. -/
lemma Storage.set_set_data (s : Storage) (k v : String) :
    ((s.set k v).set k v).data = (s.set k v).data := by
  simp [Storage.set, List.filter_filter]

/-- C9: toggle with the explicit state true is idempotent: the first call
sets the mode to enabled, and the second call leaves the mode, both
visual markers and the visible stored data unchanged (a set operation,
not a flip). -/
theorem toggle_true_idempotent (c : Ctrl) :
    ((c.toggle (some (.bool true)) none).state = some Mode.enabled)
  ∧ (((c.toggle (some (.bool true)) none).toggle (some (.bool true)) none).state
       = some Mode.enabled)
  ∧ (((c.toggle (some (.bool true)) none).toggle (some (.bool true)) none).classDark
       = (c.toggle (some (.bool true)) none).classDark)
  ∧ (((c.toggle (some (.bool true)) none).toggle (some (.bool true)) none).classLight
       = (c.toggle (some (.bool true)) none).classLight)
  ∧ (((c.toggle (some (.bool true)) none).toggle (some (.bool true)) none).store.map
       Storage.data
       = (c.toggle (some (.bool true)) none).store.map Storage.data) := by
  rw [toggle_explicit_true c, toggle_explicit_true]
  rcases c.store with _ | s
  · simp
  · by_cases hk : c.key = "" <;> simp [hk, Storage.set_set_data]

end DarkMode

namespace DarkMode

/-- ensureHandler always leaves a handler state installed. -/
lemma ensureHandler_handlerState_isSome (c : Ctrl) :
    ((c.ensureHandler).handlerState).isSome = true := by
  unfold Ctrl.ensureHandler
  rcases h : c.handlerState with _ | hs <;> simp [h]

/-- Every arm of the dispatch switch stores a handler state. -/
lemma dispatch_handlerState_isSome (c : Ctrl) (hs : HandlerState) (tr : Option Trigger)
    (target : Option Element) (ownerDoc : Option ℕ) (m : Bool) :
    ((Ctrl.dispatch c hs tr target ownerDoc m).handlerState).isSome = true := by
  unfold Ctrl.dispatch
  (repeat' split) <;> simp [toggle_handlerState]

/-- handleEvent always leaves a handler state installed. -/
lemma handleEvent_handlerState_isSome (c : Ctrl) (ev : Option Event) :
    ((c.handleEvent ev).handlerState).isSome = true := by
  unfold Ctrl.handleEvent
  rcases h : (c.ensureHandler).handlerState with _ | hs
  · have h2 := ensureHandler_handlerState_isSome c
    rw [h] at h2
    simp at h2
  · simp only [h]
    exact dispatch_handlerState_isSome _ _ _ _ _ _

/-- Every arm of the dispatch switch restores the timer invariant, given
that the timer was cleared on entry. -/
lemma inv_rhs_false (hs : HandlerState)
    (h : ¬(hs.target ≠ none ∧ hs.committed = some false)) :
    (hs.target.isSome && (hs.committed == some false)) = false := by
  rcases htg : hs.target with _ | t
  · simp
  · rcases not_and_or.mp h with h1 | h1
    · exact absurd (by simp [htg]) h1
    · simp [beq_eq_false_iff_ne, h1]

lemma checkInv_dispatch (c : Ctrl) (hs : HandlerState) (tr : Option Trigger)
    (target : Option Element) (ownerDoc : Option ℕ) (m : Bool)
    (ht : hs.timeout = none) :
    checkInv (Ctrl.dispatch c hs tr target ownerDoc m) = true := by
  unfold Ctrl.dispatch
  (repeat' split) <;>
    simp_all [checkInv, toggle_handlerState, inv_rhs_false, Option.isSome_iff_ne_none, not_or]

/-- handleEvent preserves (in fact unconditionally establishes) the timer
invariant. -/
lemma checkInv_handleEvent (c : Ctrl) (ev : Option Event) :
    checkInv (c.handleEvent ev) = true := by
  unfold Ctrl.handleEvent
  rcases h : (c.ensureHandler).handlerState with _ | hs
  · have h2 := ensureHandler_handlerState_isSome c
    rw [h] at h2
    simp at h2
  · simp only [h]
    exact checkInv_dispatch _ _ _ _ _ _ rfl

/-- Delivering events preserves the timer invariant. -/
lemma run_checkInv (evs : List (Option Event)) (c : Ctrl) (h : checkInv c = true) :
    checkInv (run c evs) = true := by
  induction evs generalizing c with
  | nil => exact h
  | cons e rest ih => exact ih _ (checkInv_handleEvent c e)

/-- C6: in every state reachable by delivering any sequence of events
(pointer events, system events, timer callbacks, unrecognized events) to
a freshly constructed controller, the pending timer handle is set exactly
when a pending target is set and committed is false. -/
theorem timer_invariant (cfg : Config) (evs : List (Option Event)) :
    checkInv (run (construct cfg) evs) = true := by
  apply run_checkInv
  simp [checkInv, construct_handlerState]

/-- C10: for every live controller on which no event has been delivered,
the handler state does not exist yet (it is created only by the first
handleEvent invocation, never by the constructor), and detach throws a
TypeError when destructuring it instead of being a no-op. -/
theorem detach_before_first_event (cfg : Config) :
    (construct cfg).handlerState = none
  ∧ (construct cfg).detach = .error .typeError
  ∧ ∀ ev : Option Event, ((construct cfg).handleEvent ev).handlerState ≠ none := by
  refine ⟨construct_handlerState cfg, ?_, ?_⟩
  · unfold Ctrl.detach
    simp [construct_handlerState]
  · intro ev hn
    have h2 := handleEvent_handlerState_isSome (construct cfg) ev
    rw [hn] at h2
    simp at h2

end DarkMode

namespace DarkMode

/-- A controller that already carries a handler state is unchanged by the
lazy creation step. -/
lemma ensureHandler_of_some {c : Ctrl} {hs : HandlerState}
    (h : c.handlerState = some hs) : c.ensureHandler = c := by
  unfold Ctrl.ensureHandler
  simp [h]

/-- Every toggle invocation appends exactly one entry to the toggle log. -/
@[simp] lemma toggle_toggleLog (c : Ctrl) (st : Option ToggleArg) (a : Option Bool) :
    (c.toggle st a).toggleLog = c.toggleLog ++ [(st, a)] := by
  unfold Ctrl.toggle Ctrl.toggleCore
  dsimp only
  (repeat' split) <;> simp_all

/-- A bare toggle() inverts the applied visual and records the inverted
mode. -/
@[simp] lemma toggle_none_state (c : Ctrl) :
    (c.toggle none none).state
      = some (if c.classDark then Mode.disabled else Mode.enabled) := by
  unfold Ctrl.toggle Ctrl.toggleCore
  dsimp only
  (repeat' split) <;> simp_all

/-- A toggle("auto") always records mode auto. -/
@[simp] lemma toggle_auto_state (c : Ctrl) :
    (c.toggle (some .auto) none).state = some Mode.auto := by
  unfold Ctrl.toggle Ctrl.toggleCore
  dsimp only
  (repeat' split) <;> simp_all

/-- A registered or container-owned document stays registered or
container-owned through registry growth. -/
lemma registerContext_mem (c : Ctrl) (hs : HandlerState) (d : ℕ) :
    d = c.containerDoc ∨ d ∈ (registerContext c hs (some d)).2 := by
  unfold registerContext
  dsimp only
  split
  · rename_i h
    rcases h with h | h
    · exact Or.inl h
    · exact Or.inr h
  · right
    simp

end DarkMode

namespace DarkMode

@[simp] lemma ensureHandler_state (c : Ctrl) : (c.ensureHandler).state = c.state := by
  unfold Ctrl.ensureHandler
  split <;> rfl

@[simp] lemma ensureHandler_classDark (c : Ctrl) : (c.ensureHandler).classDark = c.classDark := by
  unfold Ctrl.ensureHandler
  split <;> rfl

@[simp] lemma ensureHandler_classLight (c : Ctrl) : (c.ensureHandler).classLight = c.classLight := by
  unfold Ctrl.ensureHandler
  split <;> rfl

@[simp] lemma ensureHandler_toggleLog (c : Ctrl) : (c.ensureHandler).toggleLog = c.toggleLog := by
  unfold Ctrl.ensureHandler
  split <;> rfl

@[simp] lemma ensureHandler_store (c : Ctrl) : (c.ensureHandler).store = c.store := by
  unfold Ctrl.ensureHandler
  split <;> rfl

@[simp] lemma ensureHandler_prefers (c : Ctrl) : (c.ensureHandler).prefers = c.prefers := by
  unfold Ctrl.ensureHandler
  split <;> rfl

@[simp] lemma ensureHandler_key (c : Ctrl) : (c.ensureHandler).key = c.key := by
  unfold Ctrl.ensureHandler
  split <;> rfl

@[simp] lemma ensureHandler_containerDoc (c : Ctrl) :
    (c.ensureHandler).containerDoc = c.containerDoc := by
  unfold Ctrl.ensureHandler
  split <;> rfl

/-- A down event with a resolvable target always captures: the handler
state records the target with committed false and a pending timer, the
owning document is container-owned or registered, and the controller
facing state (mode, markers, store, toggle log) is untouched. -/
lemma handleEvent_down (c : Ctrl) (pt : PointerType) (el : Element) (d : ℕ)
    (hel : el.owner = some d)
    (hcl : classify (some (.pointer pt (some el))) = some Trigger.down) :
    ∃ hs : HandlerState,
      (c.handleEvent (some (.pointer pt (some el)))).handlerState = some hs
      ∧ hs.target = some el ∧ hs.committed = some false ∧ hs.action = some "capture"
      ∧ (d = c.containerDoc ∨ d ∈ hs.targets)
      ∧ (c.handleEvent (some (.pointer pt (some el)))).state = c.state
      ∧ (c.handleEvent (some (.pointer pt (some el)))).classDark = c.classDark
      ∧ (c.handleEvent (some (.pointer pt (some el)))).classLight = c.classLight
      ∧ (c.handleEvent (some (.pointer pt (some el)))).toggleLog = c.toggleLog
      ∧ (c.handleEvent (some (.pointer pt (some el)))).store = c.store
      ∧ (c.handleEvent (some (.pointer pt (some el)))).prefers = c.prefers
      ∧ (c.handleEvent (some (.pointer pt (some el)))).key = c.key
      ∧ (c.handleEvent (some (.pointer pt (some el)))).containerDoc = c.containerDoc := by
  unfold Ctrl.handleEvent
  rcases hh : (c.ensureHandler).handlerState with _ | hs0
  · have h2 := ensureHandler_handlerState_isSome c
    rw [hh] at h2
    simp at h2
  · simp only [hh, hcl, eventTarget, Option.some_bind, hel, Ctrl.dispatch, reduceCtorEq,
      or_self, if_false]
    refine ⟨_, rfl, ?_, ?_, ?_, ?_, ?_, ?_, ?_, ?_, ?_, ?_, ?_, ?_⟩ <;>
      first
        | rfl
        | (simp
           done)
        | (have hmem := registerContext_mem (c.ensureHandler)
             { hs0 with timeout := none } d
           simpa using hmem)

end DarkMode

namespace DarkMode

/-- An up event on the pending target while committed is false performs
exactly one bare toggle, inverts the applied visual into the recorded
mode, classifies as "toggle", clears the timer and returns to idle. -/
lemma handleEvent_up_toggle (c : Ctrl) (pt : PointerType) (el : Element) (hs : HandlerState)
    (hcl : classify (some (.pointer pt (some el))) = some Trigger.up)
    (hhs : c.handlerState = some hs)
    (htgt : hs.target = some el) (hcom : hs.committed = some false) :
    (c.handleEvent (some (.pointer pt (some el)))).toggleLog = c.toggleLog ++ [(none, none)]
  ∧ (c.handleEvent (some (.pointer pt (some el)))).state
      = some (if c.classDark then Mode.disabled else Mode.enabled)
  ∧ (c.handleEvent (some (.pointer pt (some el)))).lastAction = some "toggle"
  ∧ ∃ hs2, (c.handleEvent (some (.pointer pt (some el)))).handlerState = some hs2
      ∧ hs2.timeout = none ∧ hs2.target = none ∧ hs2.committed = none := by
  unfold Ctrl.handleEvent
  rw [ensureHandler_of_some hhs]
  simp only [hhs, hcl, eventTarget, Option.some_bind, Ctrl.dispatch, Ctrl.lastAction, htgt,
    hcom, reduceCtorEq, if_false]
  refine ⟨?_, ?_, ?_, ?_⟩ <;>
    first
      | (simp
         done)
      | refine ⟨_, rfl, rfl, rfl, rfl⟩

end DarkMode

namespace DarkMode

/-- The long-press timer firing (argument-less invocation) while a target
is pending and committed is false performs exactly one toggle("auto"),
records mode auto, classifies as "auto" and keeps holding the target with
committed true and the timer cleared. -/
lemma handleEvent_timer_auto (c : Ctrl) (hs : HandlerState)
    (hhs : c.handlerState = some hs)
    (htgt : hs.target ≠ none) (hcom : hs.committed = some false) :
    (c.handleEvent none).toggleLog = c.toggleLog ++ [(some .auto, none)]
  ∧ (c.handleEvent none).state = some Mode.auto
  ∧ (c.handleEvent none).lastAction = some "auto"
  ∧ ∃ hs2, (c.handleEvent none).handlerState = some hs2
      ∧ hs2.timeout = none ∧ hs2.target = hs.target ∧ hs2.committed = some true := by
  unfold Ctrl.handleEvent
  rw [ensureHandler_of_some hhs]
  simp only [hhs, eventTarget, Option.none_bind, classify, registerContext, Ctrl.dispatch,
    Ctrl.lastAction, htgt, hcom]
  refine ⟨?_, ?_, ?_, ?_⟩ <;>
    first
      | (simp [htgt]
         done)
      | refine ⟨_, by simp [htgt], rfl, rfl, rfl⟩

/-- An up event while a target is pending that does not match the toggle
condition (different target, or already committed) classifies as
"release": no toggle, no state change, pending gesture cleared. -/
lemma handleEvent_up_release (c : Ctrl) (pt : PointerType) (el : Element) (hs : HandlerState)
    (hcl : classify (some (.pointer pt (some el))) = some Trigger.up)
    (hhs : c.handlerState = some hs)
    (htgt : hs.target ≠ none)
    (hne : ¬(hs.target = some el ∧ hs.committed = some false)) :
    (c.handleEvent (some (.pointer pt (some el)))).toggleLog = c.toggleLog
  ∧ (c.handleEvent (some (.pointer pt (some el)))).state = c.state
  ∧ (c.handleEvent (some (.pointer pt (some el)))).lastAction = some "release"
  ∧ ∃ hs2, (c.handleEvent (some (.pointer pt (some el)))).handlerState = some hs2
      ∧ hs2.timeout = none ∧ hs2.target = none ∧ hs2.committed = none := by
  unfold Ctrl.handleEvent
  rw [ensureHandler_of_some hhs]
  simp only [hhs, hcl, eventTarget, Option.some_bind, Ctrl.dispatch, Ctrl.lastAction]
  refine ⟨?_, ?_, ?_, ?_⟩ <;>
    first
      | (simp [htgt, hne]
         done)
      | refine ⟨_, by simp [htgt, hne], rfl, rfl, rfl⟩

end DarkMode

namespace DarkMode

/-- C3: for every gesture of a down event on a resolvable target followed,
before the long-press timer fires, by an up event on the same target
(committed is then still false), the handler performs exactly one toggle
action, the mode is inverted from its pre-gesture value, the pending
timer is cleared, and the handler is idle again. The pre-gesture mode is
enabled or disabled with the matching visual marker applied. -/
theorem tap_gesture (c : Ctrl) (dn upt : PointerType) (el : Element) (d : ℕ) (m : Mode)
    (hel : el.owner = some d)
    (hdn : classify (some (.pointer dn (some el))) = some Trigger.down)
    (hup : classify (some (.pointer upt (some el))) = some Trigger.up)
    (hm : c.state = some m)
    (hmd : m = Mode.enabled ∨ m = Mode.disabled)
    (hcd : c.classDark = decide (m = Mode.enabled)) :
    (((c.handleEvent (some (.pointer dn (some el)))).handleEvent
        (some (.pointer upt (some el)))).toggleLog = c.toggleLog ++ [(none, none)])
  ∧ (((c.handleEvent (some (.pointer dn (some el)))).handleEvent
        (some (.pointer upt (some el)))).state
      = some (if m = Mode.enabled then Mode.disabled else Mode.enabled))
  ∧ (((c.handleEvent (some (.pointer dn (some el)))).handleEvent
        (some (.pointer upt (some el)))).lastAction = some "toggle")
  ∧ ∃ hs2, ((c.handleEvent (some (.pointer dn (some el)))).handleEvent
        (some (.pointer upt (some el)))).handlerState = some hs2
      ∧ hs2.timeout = none ∧ hs2.target = none ∧ hs2.committed = none := by
  obtain ⟨hs, hh, ht, hc, hact, hmem, hst, hcd2, hcl2, hlog, hsto, hpref, hkey, hdoc⟩ :=
    handleEvent_down c dn el d hel hdn
  obtain ⟨h1, h2, h3, h4⟩ :=
    handleEvent_up_toggle (c.handleEvent (some (.pointer dn (some el)))) upt el hs hup hh ht hc
  refine ⟨?_, ?_, h3, h4⟩
  · rw [h1, hlog]
  · rw [h2, hcd2, hcd]
    rcases hmd with hmd | hmd <;> subst hmd <;> simp

/-- An enabled controller with the dark marker applied, used as the
concrete gesture starting point. -/
def tapCtrl : Ctrl :=
  { key := "k", longPressTimeout := 2000, supportsMouse := true, containerDoc := 0,
    classDark := true, state := some Mode.enabled }

/-- A concrete element owned by the container document. -/
def elA : Element := ⟨1, some 0⟩

/-- C3 witness: the tap gesture on a concrete enabled controller. -/
theorem tap_gesture_witness :
    (((tapCtrl.handleEvent (some (.pointer .pointerDown (some elA)))).handleEvent
        (some (.pointer .pointerUp (some elA)))).toggleLog = tapCtrl.toggleLog ++ [(none, none)])
  ∧ (((tapCtrl.handleEvent (some (.pointer .pointerDown (some elA)))).handleEvent
        (some (.pointer .pointerUp (some elA)))).state
      = some (if Mode.enabled = Mode.enabled then Mode.disabled else Mode.enabled))
  ∧ (((tapCtrl.handleEvent (some (.pointer .pointerDown (some elA)))).handleEvent
        (some (.pointer .pointerUp (some elA)))).lastAction = some "toggle")
  ∧ ∃ hs2, ((tapCtrl.handleEvent (some (.pointer .pointerDown (some elA)))).handleEvent
        (some (.pointer .pointerUp (some elA)))).handlerState = some hs2
      ∧ hs2.timeout = none ∧ hs2.target = none ∧ hs2.committed = none :=
  tap_gesture tapCtrl .pointerDown .pointerUp elA 0 Mode.enabled rfl rfl rfl rfl
    (Or.inl rfl) rfl

/-- C4: a down event on a resolvable target followed by the timer firing
(no up event in between) performs exactly one toggle, with argument
"auto", and the mode becomes auto; an up event on the same target
arriving afterwards classifies as "release", not "toggle", and performs
zero additional toggles, leaving the mode auto. -/
theorem longpress_auto_commit (c : Ctrl) (dn upt : PointerType) (el : Element) (d : ℕ)
    (hel : el.owner = some d)
    (hdn : classify (some (.pointer dn (some el))) = some Trigger.down)
    (hup : classify (some (.pointer upt (some el))) = some Trigger.up) :
    (((c.handleEvent (some (.pointer dn (some el)))).handleEvent none).toggleLog
      = c.toggleLog ++ [(some .auto, none)])
  ∧ (((c.handleEvent (some (.pointer dn (some el)))).handleEvent none).state = some Mode.auto)
  ∧ ((((c.handleEvent (some (.pointer dn (some el)))).handleEvent none).handleEvent
        (some (.pointer upt (some el)))).toggleLog
      = ((c.handleEvent (some (.pointer dn (some el)))).handleEvent none).toggleLog)
  ∧ ((((c.handleEvent (some (.pointer dn (some el)))).handleEvent none).handleEvent
        (some (.pointer upt (some el)))).state = some Mode.auto)
  ∧ ((((c.handleEvent (some (.pointer dn (some el)))).handleEvent none).handleEvent
        (some (.pointer upt (some el)))).lastAction = some "release") := by
  obtain ⟨hs, hh, ht, hc, hact, hmem, hst, hcd2, hcl2, hlog, hsto, hpref, hkey, hdoc⟩ :=
    handleEvent_down c dn el d hel hdn
  have htne : hs.target ≠ none := by simp [ht]
  obtain ⟨t1, t2, t3, hs2, th, ttime, ttgt, tcom⟩ :=
    handleEvent_timer_auto (c.handleEvent (some (.pointer dn (some el)))) hs hh htne hc
  have htne2 : hs2.target ≠ none := by simp [ttgt, ht]
  have hne2 : ¬(hs2.target = some el ∧ hs2.committed = some false) := by
    simp [tcom]
  obtain ⟨r1, r2, r3, _⟩ :=
    handleEvent_up_release ((c.handleEvent (some (.pointer dn (some el)))).handleEvent none)
      upt el hs2 hup th htne2 hne2
  refine ⟨?_, t2, r1, ?_, r3⟩
  · rw [t1, hlog]
  · rw [r2, t2]

/-- C4 witness: the long-press gesture on the same concrete controller. -/
theorem longpress_auto_commit_witness :
    (((tapCtrl.handleEvent (some (.pointer .mouseDown (some elA)))).handleEvent none).toggleLog
      = tapCtrl.toggleLog ++ [(some .auto, none)])
  ∧ (((tapCtrl.handleEvent (some (.pointer .mouseDown (some elA)))).handleEvent none).state
      = some Mode.auto)
  ∧ ((((tapCtrl.handleEvent (some (.pointer .mouseDown (some elA)))).handleEvent none).handleEvent
        (some (.pointer .mouseUp (some elA)))).toggleLog
      = ((tapCtrl.handleEvent (some (.pointer .mouseDown (some elA)))).handleEvent none).toggleLog)
  ∧ ((((tapCtrl.handleEvent (some (.pointer .mouseDown (some elA)))).handleEvent none).handleEvent
        (some (.pointer .mouseUp (some elA)))).state = some Mode.auto)
  ∧ ((((tapCtrl.handleEvent (some (.pointer .mouseDown (some elA)))).handleEvent none).handleEvent
        (some (.pointer .mouseUp (some elA)))).lastAction = some "release") :=
  longpress_auto_commit tapCtrl .mouseDown .mouseUp elA 0 rfl rfl rfl

end DarkMode

namespace DarkMode

/-- Explicit form of a plain toggle(false) call. -/
lemma toggle_explicit_false (c : Ctrl) :
    c.toggle (some (.bool false)) none =
      { c with toggleLog := c.toggleLog ++ [(some (.bool false), none)],
               state := some Mode.disabled,
               store := match c.store with
                 | some s => if c.key ≠ "" then some (s.set c.key "disabled") else some s
                 | none => none,
               classDark := false, classLight := true } := by
  unfold Ctrl.toggle Ctrl.toggleCore
  dsimp only
  (repeat' split) <;> simp_all [Mode.str]

/-- Explicit form of an auto-driven boolean toggle on a controller whose
mode is auto: the preference is recorded, the mode stays auto, "auto" is
written back to the store, and the visual follows the boolean. -/
lemma toggle_bool_auto_explicit (c : Ctrl) (b : Bool) (hst : c.state = some Mode.auto) :
    c.toggle (some (.bool b)) (some true) =
      { c with toggleLog := c.toggleLog ++ [(some (.bool b), some true)],
               prefers := some (if b then ColorScheme.dark else ColorScheme.light),
               state := some Mode.auto,
               store := match c.store with
                 | some s => if c.key ≠ "" then some (s.set c.key "auto") else some s
                 | none => none,
               classDark := b, classLight := !b } := by
  unfold Ctrl.toggle Ctrl.toggleCore
  dsimp only
  rcases b <;> (repeat' split) <;> simp_all [Mode.str]

/-- C5: with an available store, initialization follows the persisted
precedence: the literal "enabled" gives mode enabled with the dark marker;
else the literal "disabled" gives mode disabled with the light marker;
else the mode is auto, the dark marker is applied exactly when
prefers-dark matches or prefers-light is unavailable or not matching, and
the string "auto" is persisted. -/
theorem init_precedence (cfg : Config) (s : Storage) (h : cfg.store = some s) :
    ((construct cfg).state =
      some (if s.get cfg.key = some "enabled" then Mode.enabled
            else if s.get cfg.key = some "disabled" then Mode.disabled else Mode.auto))
  ∧ ((construct cfg).classDark =
      (if s.get cfg.key = some "enabled" then true
       else if s.get cfg.key = some "disabled" then false
       else ((cfg.mqDark == some true) || !(cfg.mqLight == some true))))
  ∧ ((construct cfg).classLight = !(construct cfg).classDark)
  ∧ (s.get cfg.key ≠ some "enabled" → s.get cfg.key ≠ some "disabled" →
      ∃ s2, (construct cfg).store = some s2 ∧ s2.get cfg.key = some "auto") := by
  unfold construct
  rw [h]
  dsimp only
  by_cases he : s.get cfg.key = some "enabled"
  · simp only [he, if_true, toggle_explicit_true]
    refine ⟨by simp, by simp, by simp, ?_⟩
    intro h1 _
    exact absurd rfl h1
  · by_cases hd : s.get cfg.key = some "disabled"
    · simp only [he, hd, if_false, if_true, toggle_explicit_false]
      refine ⟨by simp, by simp, by simp, ?_⟩
      intro _ h2
      exact absurd rfl h2
    · simp only [he, hd, if_false]
      rw [toggle_bool_auto_explicit _ _ rfl]
      refine ⟨by simp, by simp, by simp, ?_⟩
      intro _ _
      by_cases hk : cfg.key = ""
      · exact ⟨s.set cfg.key "auto", by simp [hk], by simp⟩
      · exact ⟨(s.set cfg.key "auto").set cfg.key "auto", by simp [hk], by simp⟩

/-- C5 witness: the precedence at a concrete configuration whose store
holds the literal "disabled". -/
theorem init_precedence_witness :
    ((construct { key := "k", store := some ⟨[("k", "disabled")], []⟩ }).state =
      some (if (⟨[("k", "disabled")], []⟩ : Storage).get "k" = some "enabled" then Mode.enabled
            else if (⟨[("k", "disabled")], []⟩ : Storage).get "k" = some "disabled" then
              Mode.disabled else Mode.auto))
  ∧ ((construct { key := "k", store := some ⟨[("k", "disabled")], []⟩ }).classDark =
      (if (⟨[("k", "disabled")], []⟩ : Storage).get "k" = some "enabled" then true
       else if (⟨[("k", "disabled")], []⟩ : Storage).get "k" = some "disabled" then false
       else ((Config.mqDark { key := "k", store := some ⟨[("k", "disabled")], []⟩ } == some true)
         || !(Config.mqLight { key := "k", store := some ⟨[("k", "disabled")], []⟩ } == some true))))
  ∧ ((construct { key := "k", store := some ⟨[("k", "disabled")], []⟩ }).classLight
      = !(construct { key := "k", store := some ⟨[("k", "disabled")], []⟩ }).classDark)
  ∧ ((⟨[("k", "disabled")], []⟩ : Storage).get "k" ≠ some "enabled" →
      (⟨[("k", "disabled")], []⟩ : Storage).get "k" ≠ some "disabled" →
      ∃ s2, (construct { key := "k", store := some ⟨[("k", "disabled")], []⟩ }).store = some s2
        ∧ s2.get "k" = some "auto") :=
  init_precedence { key := "k", store := some ⟨[("k", "disabled")], []⟩ }
    ⟨[("k", "disabled")], []⟩ rfl

end DarkMode

namespace DarkMode

/-- A controller in auto mode with a stored value "auto", used as the
concrete starting point for system-preference events. -/
def autoCtrl : Ctrl :=
  { key := "k", longPressTimeout := 2000, supportsMouse := true, containerDoc := 0,
    classDark := false, classLight := true, state := some Mode.auto,
    store := some { data := [("k", "auto")], writeLog := [] } }

/-- C8 counterexample: on a controller in auto mode with an available
store, a system-preference event reporting a dark match makes the write
log grow from empty to one entry: a storage write is performed, contrary
to the claim that no storage write happens. -/
theorem auto_system_event_writes :
    ((autoCtrl.handleEvent (some (.system .dark true))).store.map Storage.writeLog
      = some [("k", "auto")])
  ∧ (autoCtrl.store.map Storage.writeLog = some [])
  ∧ ((autoCtrl.handleEvent (some (.system .dark true))).classDark = true) := by decide

/-- C8 (amended): for every controller in auto mode with an available
store and a non-empty key, a system-preference event with a positive
match applies that scheme the visual marker, keeps the mode auto, and
writes the string "auto" back to the store: the persisted value remains
"auto" but one storage write is performed. -/
theorem auto_system_event (c : Ctrl) (s : Storage) (scheme : ColorScheme)
    (hst : c.state = some Mode.auto) (hsto : c.store = some s) (hk : c.key ≠ "") :
    ((c.handleEvent (some (.system scheme true))).classDark = (scheme == ColorScheme.dark))
  ∧ ((c.handleEvent (some (.system scheme true))).classLight = (scheme == ColorScheme.light))
  ∧ ((c.handleEvent (some (.system scheme true))).state = some Mode.auto)
  ∧ ((c.handleEvent (some (.system scheme true))).store = some (s.set c.key "auto"))
  ∧ ((s.set c.key "auto").get c.key = some "auto")
  ∧ ((s.set c.key "auto").writeLog = s.writeLog ++ [(c.key, "auto")]) := by
  cases scheme <;>
    (unfold Ctrl.handleEvent
     rcases hh : (c.ensureHandler).handlerState with _ | hs0
     · exfalso
       have h2 := ensureHandler_handlerState_isSome c
       rw [hh] at h2
       simp at h2
     · simp only [hh, classify, eventTarget, Option.none_bind, registerContext, Ctrl.dispatch,
         eventMatches, if_true]
       rw [toggle_bool_auto_explicit _ _ (by simp [hst])]
       exact ⟨by simp, by simp, by simp, by simp [hsto, hk], by simp, by simp⟩)

/-- C8 witness: the amended behavior at the concrete auto controller and
the dark scheme. -/
theorem auto_system_event_witness :
    ((autoCtrl.handleEvent (some (.system .dark true))).classDark
      = (ColorScheme.dark == ColorScheme.dark))
  ∧ ((autoCtrl.handleEvent (some (.system .dark true))).classLight
      = (ColorScheme.dark == ColorScheme.light))
  ∧ ((autoCtrl.handleEvent (some (.system .dark true))).state = some Mode.auto)
  ∧ ((autoCtrl.handleEvent (some (.system .dark true))).store
      = some ((⟨[("k", "auto")], []⟩ : Storage).set "k" "auto"))
  ∧ (((⟨[("k", "auto")], []⟩ : Storage).set "k" "auto").get "k" = some "auto")
  ∧ (((⟨[("k", "auto")], []⟩ : Storage).set "k" "auto").writeLog
      = (⟨[("k", "auto")], []⟩ : Storage).writeLog ++ [("k", "auto")]) :=
  auto_system_event autoCtrl ⟨[("k", "auto")], []⟩ .dark rfl rfl (by decide)

/-- The configuration used to exhibit the detach bug: a store holding
"enabled" and both media-query feeds present, so both preference-feed
subscriptions are attached at construction. -/
def detachCfg : Config :=
  { key := "k", supportsMouse := true, containerDoc := 0,
    store := some { data := [("k", "enabled")], writeLog := [] },
    mqDark := some true, mqLight := some false }

/-- A concrete element owned by the container document, used for the
detach scenario. -/
def elB : Element := ⟨2, some 0⟩

/-- C2 evidence: after one down event the instance has installed exactly
the capture-phase "mouseup" listener on the container document; detach
returns without removing it (it calls removeEventListener with the
"on"-prefixed names and the default bubble phase, which match nothing)
and leaves both media-query subscriptions attached. -/
theorem detach_leaves_listeners_installed :
    (((construct detachCfg).handleEvent (some (.pointer .mouseDown (some elB)))).domListeners
      = [(0, "mouseup", true)])
  ∧ ((((construct detachCfg).handleEvent
        (some (.pointer .mouseDown (some elB)))).detach.toOption.map Ctrl.domListeners)
      = some [(0, "mouseup", true)])
  ∧ ((((construct detachCfg).handleEvent
        (some (.pointer .mouseDown (some elB)))).detach.toOption.map Ctrl.mqDarkListener)
      = some true)
  ∧ ((((construct detachCfg).handleEvent
        (some (.pointer .mouseDown (some elB)))).detach.toOption.map Ctrl.mqLightListener)
      = some true) := by decide

end DarkMode

namespace DarkMode

/-- C6 witness: the invariant evaluated on a concrete run containing a
capture, a timer fire, an unrecognized event and a release. -/
theorem timer_invariant_witness :
    checkInv (run (construct { key := "k", store := some ⟨[], []⟩ })
      [some (.pointer .pointerDown (some ⟨1, some 0⟩)), none,
       some (.unknown (some ⟨1, some 0⟩)),
       some (.pointer .pointerUp (some ⟨1, some 0⟩))]) = true :=
  timer_invariant { key := "k", store := some ⟨[], []⟩ }
    [some (.pointer .pointerDown (some ⟨1, some 0⟩)), none,
     some (.unknown (some ⟨1, some 0⟩)),
     some (.pointer .pointerUp (some ⟨1, some 0⟩))]

/-- A plain freshly built controller used as the idempotence witness
input. -/
def plainCtrl : Ctrl :=
  { key := "k", longPressTimeout := 2000, supportsMouse := true, containerDoc := 0,
    store := some ⟨[], []⟩ }

/-- C9 witness: the idempotence statement at a concrete controller. -/
theorem toggle_true_idempotent_witness :
    ((plainCtrl.toggle (some (.bool true)) none).state = some Mode.enabled)
  ∧ (((plainCtrl.toggle (some (.bool true)) none).toggle (some (.bool true)) none).state
       = some Mode.enabled)
  ∧ (((plainCtrl.toggle (some (.bool true)) none).toggle (some (.bool true)) none).classDark
       = (plainCtrl.toggle (some (.bool true)) none).classDark)
  ∧ (((plainCtrl.toggle (some (.bool true)) none).toggle (some (.bool true)) none).classLight
       = (plainCtrl.toggle (some (.bool true)) none).classLight)
  ∧ (((plainCtrl.toggle (some (.bool true)) none).toggle (some (.bool true)) none).store.map
       Storage.data
       = (plainCtrl.toggle (some (.bool true)) none).store.map Storage.data) :=
  toggle_true_idempotent plainCtrl

/-- C10 witness: the lazy-creation behavior at a concrete configuration. -/
theorem detach_before_first_event_witness :
    (construct { key := "k", store := some ⟨[], []⟩ }).handlerState = none
  ∧ (construct { key := "k", store := some ⟨[], []⟩ }).detach = .error .typeError
  ∧ ∀ ev : Option Event,
      ((construct { key := "k", store := some ⟨[], []⟩ }).handleEvent ev).handlerState ≠ none :=
  detach_before_first_event { key := "k", store := some ⟨[], []⟩ }

end DarkMode
